import Mathlib

/-!
Verification development for the thezonebio-dashboard data-collection
pipeline (`src/data/collect.py` and `src/data/collectors/cafe24_scraper.py`).

The Python source is shallowly embedded: pure helpers become Lean functions,
the effectful collectors become functions over an explicit environment
(transport outcome, websocket frame stream, cache-file state, clock), and
Python numbers appearing in revenue arithmetic become `ℚ`.
-/

namespace TZB

/-! ### Python-style rounding

`round(x, 1)` in Python rounds half to even.  We model it exactly over `ℚ`:
`pyRoundInt` is `round(x)` (banker's rounding to an integer), `pyRound1`
is `round(x, 1)`. -/

/-- Python `round(q)`: nearest integer, ties to even. -/
def pyRoundInt (q : ℚ) : ℤ :=
  if q - ⌊q⌋ < 1/2 then ⌊q⌋
  else if 1/2 < q - ⌊q⌋ then ⌊q⌋ + 1
  else if ⌊q⌋ % 2 = 0 then ⌊q⌋ else ⌊q⌋ + 1

/-- Python `round(q, 1)`: one decimal place, ties to even. -/
def pyRound1 (q : ℚ) : ℚ := (pyRoundInt (10 * q) : ℚ) / 10

theorem pyRoundInt_err (q : ℚ) : |(pyRoundInt q : ℚ) - q| ≤ 1/2 := by
  have h0 : (⌊q⌋ : ℚ) ≤ q := Int.floor_le q
  have h1 : q < ⌊q⌋ + 1 := Int.lt_floor_add_one q
  unfold pyRoundInt
  split_ifs with ha hb hc <;>
    (rw [abs_le]; push_cast; constructor <;> linarith)

theorem pyRound1_err (q : ℚ) : |pyRound1 q - q| ≤ 1/20 := by
  have h := pyRoundInt_err (10 * q)
  unfold pyRound1
  have he : (pyRoundInt (10 * q) : ℚ) / 10 - q
      = ((pyRoundInt (10 * q) : ℚ) - 10 * q) / 10 := by ring
  rw [he, abs_div]
  have h10 : |(10 : ℚ)| = 10 := by norm_num
  rw [h10]
  linarith

theorem pyRound1_zero : pyRound1 0 = 0 := by
  norm_num [pyRound1, pyRoundInt]

/-! ### Python `in` (substring) and `startswith` -/

/-- `prefixMatch p s` : `p` is a prefix of `s` (char lists). -/
def prefixMatch : List Char → List Char → Bool
  | [], _ => true
  | _ :: _, [] => false
  | p :: ps, c :: cs => p == c && prefixMatch ps cs

/-- `pat` occurs as a contiguous substring of the list. -/
def infixMatch (pat : List Char) : List Char → Bool
  | [] => prefixMatch pat []
  | c :: cs => prefixMatch pat (c :: cs) || infixMatch pat cs

/-- Python `pat in s` for strings. -/
def pyIn (pat s : String) : Bool := infixMatch pat.toList s.toList

/-- Python `s.startswith(pre)`. -/
def pyStartswith (s pre : String) : Bool := prefixMatch pre.toList s.toList

/-! ### Dates

`datetime.now()` is modelled as an explicit `Date` parameter;
`timedelta(days=i)` subtraction goes through the standard
civil-from-days / days-from-civil conversion (truncating `Int.div`, as in C,
with the era shifts keeping operands nonnegative).  `strftime` is modelled
character by character. -/

structure Date where
  year : Int
  month : Nat
  day : Nat
deriving DecidableEq, Repr

/-- Serial day number of a civil date (days since 1970-01-01). -/
def daysFromCivil (d : Date) : Int :=
  let y : Int := if d.month ≤ 2 then d.year - 1 else d.year
  let era : Int := (if 0 ≤ y then y else y - 399).tdiv 400
  let yoe : Int := y - era * 400
  let mp : Int := if 2 < d.month then (d.month : Int) - 3 else (d.month : Int) + 9
  let doy : Int := (153 * mp + 2).tdiv 5 + (d.day : Int) - 1
  let doe : Int := yoe * 365 + yoe.tdiv 4 - yoe.tdiv 100 + doy
  era * 146097 + doe - 719468

/-- Civil date of a serial day number (inverse of `daysFromCivil`). -/
def civilFromDays (z0 : Int) : Date :=
  let z : Int := z0 + 719468
  let era : Int := (if 0 ≤ z then z else z - 146096).tdiv 146097
  let doe : Int := z - era * 146097
  let yoe : Int := (doe - doe.tdiv 1460 + doe.tdiv 36524 - doe.tdiv 146096).tdiv 365
  let y : Int := yoe + era * 400
  let doy : Int := doe - (365 * yoe + yoe.tdiv 4 - yoe.tdiv 100)
  let mp : Int := (5 * doy + 2).tdiv 153
  let d : Int := doy - (153 * mp + 2).tdiv 5 + 1
  let m : Int := if mp < 10 then mp + 3 else mp - 9
  { year := if m ≤ 2 then y + 1 else y
    month := m.toNat
    day := d.toNat }

/-- `date - timedelta(days=k)`. -/
def subDays (d : Date) (k : Nat) : Date :=
  civilFromDays (daysFromCivil d - k)

def digitChar (n : Nat) : Char := Char.ofNat (48 + n)

/-- Two-digit zero-padded field (`%m`, `%d`). -/
def pad2 (n : Nat) : List Char := [digitChar (n / 10 % 10), digitChar (n % 10)]

/-- Four-digit zero-padded field (`%Y`, for the years in scope). -/
def pad4 (n : Nat) : List Char :=
  [digitChar (n / 1000 % 10), digitChar (n / 100 % 10),
   digitChar (n / 10 % 10), digitChar (n % 10)]

/-- `date.strftime("%Y-%m-%d")`. -/
def fmtYMD (d : Date) : String :=
  String.mk (pad4 d.year.toNat ++ '-' :: pad2 d.month ++ '-' :: pad2 d.day)

/-- `date.strftime("%m/%d")`. -/
def fmtMD (d : Date) : String :=
  String.mk (pad2 d.month ++ '/' :: pad2 d.day)

/-! ### Data model

The collectors and combiner pass around parsed JSON dictionaries and use
`dict.get(key, default)` everywhere, so every field is an `Option` and each
`.get` becomes `Option.getD`. -/

/-- An entry of an order's `items` list (only `product_name` is read). -/
structure Item where
  product_name : Option String
deriving DecidableEq, Repr

/-- An order dictionary as it appears in `orders` lists. -/
structure Order where
  order_id : Option String
  channel : Option String
  status : Option String
  customer_name : Option String
  product_name : Option String
  items : Option (List Item)
  quantity : Option ℚ
  total_amount : Option ℚ
  ordered_at : Option String
deriving DecidableEq, Repr

/-- A channel `summary` dictionary. -/
structure Summary where
  total_orders : Option ℤ
  pending_shipments : Option ℤ
  total_revenue : Option ℚ
deriving DecidableEq, Repr

/-- `channel_data.get("summary", {})` on a missing key yields `{}`,
i.e. a summary with every field absent. -/
def Summary.empty : Summary := ⟨none, none, none⟩

/-- A per-channel snapshot dictionary (live, cached, or zeroed). -/
structure ChannelSnapshot where
  channel : Option String
  collected_at : Option String
  orders : Option (List Order)
  summary : Option Summary
deriving DecidableEq, Repr

/-- An inventory entry; only `status` is inspected by the combiner. -/
structure InvItem where
  product_id : Option String
  product_name : Option String
  current_stock : Option ℤ
  reserved_stock : Option ℤ
  available_stock : Option ℤ
  status : Option String
deriving DecidableEq, Repr

/-! ### Combiner (`collect.py`: `combine_data`, `generate_weekly_sales`,
`generate_inventory`) -/

structure BreakdownEntry where
  channel : String
  order_count : ℤ
  revenue : ℚ
  percentage : ℚ
deriving DecidableEq, Repr

structure WeekDay where
  date : String
  cafe24 : ℚ
  naver : ℚ
  coupang : ℚ
  total : ℚ
deriving DecidableEq, Repr

structure PendingEntry where
  order_id : String
  channel : String
  product_name : String
  quantity : ℚ
  ordered_at : String
  customer_name : String
deriving DecidableEq, Repr

structure CombinedSummary where
  date : String
  total_orders : ℕ
  total_revenue : ℚ
  pending_shipments : ℤ
  low_stock_alerts : ℕ
deriving DecidableEq, Repr

structure Combined where
  summary : CombinedSummary
  channel_breakdown : List BreakdownEntry
  weekly_sales : List WeekDay
  pending_shipments : List PendingEntry
  inventory : List InvItem
  collected_at : String
deriving DecidableEq, Repr

/-- Orders whose `ordered_at` starts with the `%Y-%m-%d` form of `date`
(the `day_orders` list comprehension). -/
def dayOrders (date : Date) (orders : List Order) : List Order :=
  orders.filter (fun o => pyStartswith (o.ordered_at.getD "") (fmtYMD date))

/-- `sum(o.get("total_amount", 0) for o in day_orders if o.get("channel") == name)`. -/
def chanRev (name : String) (os : List Order) : ℚ :=
  ((os.filter (fun o => o.channel == some name)).map
    (fun o => o.total_amount.getD 0)).sum

/-- One iteration of the `generate_weekly_sales` loop (offset `i` days back). -/
def weekEntry (now : Date) (i : Nat) (orders : List Order) : WeekDay :=
  let date := subDays now i
  let ds := dayOrders date orders
  let c := chanRev "cafe24" ds
  let n := chanRev "naver" ds
  let p := chanRev "coupang" ds
  { date := fmtMD date, cafe24 := c, naver := n, coupang := p, total := c + n + p }

/-- `generate_weekly_sales(orders)`: the loop `for i in range(6, -1, -1)`
appends the bucket for `now - timedelta(days=i)`, so entry `j` of the result
is the bucket for offset `6 - j`. -/
def generate_weekly_sales (now : Date) (orders : List Order) : List WeekDay :=
  (List.range 7).map (fun j => weekEntry now (6 - j) orders)

/-- State of `data/combined/inventory.json` (the file `generate_inventory`
reads; no claim concerns an unparseable inventory file, so only
absent/parsed states are modelled). -/
inductive InventoryState
  | absent
  | doc (items : List InvItem)
deriving DecidableEq, Repr

/-- The hardcoded default inventory returned when the file is absent. -/
def defaultInventory : List InvItem :=
  [ ⟨some "P001", some "LOCK IN COFFEE::HOUSE", some 50, some 5, some 45, some "normal"⟩
  , ⟨some "P002", some "LOCK IN COFFEE::VIBRANT", some 35, some 3, some 32, some "normal"⟩
  , ⟨some "P003", some "LOCK IN COFFEE::DECAF", some 8, some 2, some 6, some "low"⟩
  , ⟨some "P004", some "[1+1 EVENT] LOCK IN COFFEE", some 25, some 4, some 21, some "normal"⟩ ]

/-- `generate_inventory()`. -/
def generate_inventory : InventoryState → List InvItem
  | .absent => defaultInventory
  | .doc items => items

/-- `o.get("status") in ["pending", "confirmed", "processing"]`
(a missing status is `None`, which is in no such list). -/
def pendingStatus (o : Order) : Bool :=
  o.status == some "pending" || o.status == some "confirmed" ||
    o.status == some "processing"

/-- The projection built inside the `pending_shipments` list comprehension. -/
def toPendingEntry (o : Order) : PendingEntry :=
  { order_id := o.order_id.getD ""
    channel := o.channel.getD ""
    product_name :=
      match o.product_name with
      | some p => p
      | none =>
        match o.items with
        | some (it :: _) => it.product_name.getD ""
        | some [] => ""
        | none => ""
    quantity := o.quantity.getD 1
    ordered_at := o.ordered_at.getD ""
    customer_name := o.customer_name.getD "" }

/-- `summary.get("total_revenue", 0)` through `channel_data.get("summary", {})`. -/
def snapRevenue (c : ChannelSnapshot) : ℚ :=
  (c.summary.getD Summary.empty).total_revenue.getD 0

/-- `summary.get("pending_shipments", 0)` likewise. -/
def snapPending (c : ChannelSnapshot) : ℤ :=
  (c.summary.getD Summary.empty).pending_shipments.getD 0

/-- `summary.get("total_orders", 0)` likewise. -/
def snapOrderCount (c : ChannelSnapshot) : ℤ :=
  (c.summary.getD Summary.empty).total_orders.getD 0

/-- One `channel_breakdown` entry. -/
def breakdownEntry (cd : ChannelSnapshot) (name : String) (total_revenue : ℚ) :
    BreakdownEntry :=
  { channel := name
    order_count := snapOrderCount cd
    revenue := snapRevenue cd
    percentage :=
      pyRound1 (if 0 < total_revenue then snapRevenue cd / total_revenue * 100 else 0) }

/-- `combine_data(cafe24_data, naver_data, coupang_data)`.  `datetime.now()`
is the explicit `now` (for `strftime`) and `nowIso` (for `isoformat`);
the inventory file state is the explicit `inv`. -/
def combine_data (now : Date) (nowIso : String) (inv : InventoryState)
    (cafe24_data naver_data coupang_data : ChannelSnapshot) : Combined :=
  let all_orders := (cafe24_data.orders.getD []) ++ (naver_data.orders.getD [])
      ++ (coupang_data.orders.getD [])
  let total_revenue := snapRevenue cafe24_data + snapRevenue naver_data
      + snapRevenue coupang_data
  let pending_count := snapPending cafe24_data + snapPending naver_data
      + snapPending coupang_data
  let channel_breakdown :=
    [ breakdownEntry cafe24_data "cafe24" total_revenue
    , breakdownEntry naver_data "naver" total_revenue
    , breakdownEntry coupang_data "coupang" total_revenue ]
  let weekly_sales := generate_weekly_sales now all_orders
  let pending_shipments :=
    ((all_orders.filter pendingStatus).map toPendingEntry).take 20
  let inventory := generate_inventory inv
  let low_stock_count := (inventory.filter (fun i => !(i.status == some "normal"))).length
  { summary :=
      { date := fmtYMD now
        total_orders := all_orders.length
        total_revenue := total_revenue
        pending_shipments :=
          if pending_count = 0 then (pending_shipments.length : ℤ) else pending_count
        low_stock_alerts := low_stock_count }
    channel_breakdown := channel_breakdown
    weekly_sales := weekly_sales
    pending_shipments := pending_shipments
    inventory := inventory
    collected_at := nowIso }

/-! ### Remote session directory (`collect.py`: `get_browser_tabs`,
`find_tab_by_url`; `cafe24_scraper.py`: `get_tabs`, `find_cafe24_tab`) -/

/-- A page descriptor from the CDP `/json` endpoint. -/
structure Tab where
  id : Option String
  url : Option String
  title : Option String
  type : Option String
  webSocketDebuggerUrl : Option String
deriving DecidableEq, Repr

/-- Outcome of the HTTP query against the debugging endpoint:
the connection fails (raising inside `aiohttp`), or a response arrives with a
status code and a body that parses to a tab list or fails to parse. -/
inductive Transport
  | unreachable
  | resp (status : Nat) (body : Except Unit (List Tab))
deriving Repr

/-- `collect.py` `get_browser_tabs()`: the bare `except` swallows both the
connection error and a `resp.json()` parse error; a non-200 status skips the
return.  Every failure path falls through to `return []`. -/
def get_browser_tabs : Transport → List Tab
  | .unreachable => []
  | .resp status body =>
    if status = 200 then
      match body with
      | .ok tabs => tabs
      | .error _ => []
    else []

/-- `collect.py` `find_tab_by_url(url_pattern)`. -/
def find_tab_by_url (url_pattern : String) (t : Transport) : Option Tab :=
  (get_browser_tabs t).find? (fun tab => pyIn url_pattern (tab.url.getD ""))

namespace Cafe24Scraper

/-- `cafe24_scraper.py` `get_tabs()`: no `try`, so a connection failure or a
body that fails to parse raises to the caller; the status code is never
checked (`resp.json()` is returned directly). -/
def get_tabs : Transport → Except Unit (List Tab)
  | .unreachable => .error ()
  | .resp _ body => body

/-- `cafe24_scraper.py` `find_cafe24_tab()` (propagates `get_tabs` failures). -/
def find_cafe24_tab (t : Transport) : Except Unit (Option Tab) :=
  match get_tabs t with
  | .error e => .error e
  | .ok tabs =>
    .ok (tabs.find? (fun tab =>
      pyIn "cafe24.com/admin" (tab.url.getD "") && tab.type == some "page"))

end Cafe24Scraper

/-! ### Script execution channel (`cafe24_scraper.py`: `execute_script`)

A received websocket frame is a parsed JSON dictionary; `execute_script`
navigates `result.get("result", {}).get("result", {}).get("value")`.
The value type is a parameter: the pending-orders script produces a list of
order records, the dashboard script a summary object. -/

structure EvalInner (α : Type) where
  value : Option α
deriving DecidableEq, Repr

structure EvalResult (α : Type) where
  result : Option (EvalInner α)
deriving DecidableEq, Repr

/-- A frame received on the websocket connection. -/
structure CDPFrame (α : Type) where
  id : Option Nat
  result : Option (EvalResult α)
deriving DecidableEq, Repr

/-- `result.get("result", {}).get("result", {}).get("value")`. -/
def frameValue {α : Type} (f : CDPFrame α) : Option α :=
  match f.result with
  | none => none
  | some r =>
    match r.result with
    | none => none
    | some inner => inner.value

/-- The two requests `execute_script` sends, with their ids:
`{"id": 1, "method": "Runtime.enable"}` then
`{"id": 2, "method": "Runtime.evaluate", ...}`. -/
def sentMessages : List (Nat × String) :=
  [(1, "Runtime.enable"), (2, "Runtime.evaluate")]

/-- `cafe24_scraper.py` `execute_script(ws_url, script)` as a function of the
incoming frame stream: the first `ws.recv()` consumes and discards one frame,
the second `ws.recv()` is parsed and its nested `value` returned — neither
recv checks the frame's `id`.  Fewer than two frames before the connection
drops means a recv raises (also covers a failed `websockets.connect`). -/
def execute_script {α : Type} (incoming : List (CDPFrame α)) :
    Except Unit (Option α) :=
  match incoming with
  | _ :: f2 :: _ => .ok (frameValue f2)
  | _ => .error ()

/-- The response value actually correlated with request id `reqId`:
the first incoming frame carrying that id. -/
def correlatedValue {α : Type} (reqId : Nat) (frames : List (CDPFrame α)) :
    Option α :=
  (frames.find? (fun f => f.id == some reqId)).bind frameValue

/-! ### Cafe24 scraper collector (`cafe24_scraper.py`: `collect`) -/

namespace Cafe24Scraper

/-- The summary object produced by `SCRAPE_DASHBOARD_SCRIPT` (the page-side
`parseInt` makes the three fields integers). -/
structure SummaryC where
  total_orders : ℤ
  pending_shipments : ℤ
  total_revenue : ℤ
deriving DecidableEq, Repr

/-- The `data` dictionary built inside `collect()` and written to the cache. -/
structure ScrapedDoc where
  channel : String
  collected_at : String
  orders : List Order
  summary : SummaryC
deriving DecidableEq, Repr

/-- `data` as initialised at the top of `collect()`. -/
def initDoc (now : String) : ScrapedDoc :=
  { channel := "cafe24", collected_at := now, orders := [], summary := ⟨0, 0, 0⟩ }

/-- Environment of one run of `collect()`: the `/json` transport outcome, the
frame stream of the websocket connection (typed by the script variant that
would run: `SCRAPE_PENDING_SCRIPT` returns an order list,
`SCRAPE_DASHBOARD_SCRIPT` a summary object), and the wall clock. -/
structure ScraperEnv where
  transport : Transport
  pendingFrames : List (CDPFrame (List Order))
  dashFrames : List (CDPFrame SummaryC)
  now : String

/-- The `try` block of `collect()` once a tab with a websocket URL is in hand:
choose the script by `"shipped_begin" in tab["url"]`, run it, and on a truthy
result update `data`; any `execute_script` exception is caught, leaving
`data` at its initial value. -/
def scrapeTab (env : ScraperEnv) (tab : Tab) : ScrapedDoc :=
  let d0 := initDoc env.now
  if pyIn "shipped_begin" (tab.url.getD "") then
    match execute_script env.pendingFrames with
    | .error _ => d0
    | .ok none => d0
    | .ok (some orders) =>
      if orders.isEmpty then d0
      else
        { d0 with
          orders := orders
          summary := { d0.summary with pending_shipments := (orders.length : ℤ) } }
  else
    match execute_script env.dashFrames with
    | .error _ => d0
    | .ok none => d0
    | .ok (some summary) => { d0 with summary := summary }

/-- `collect()` up to the cache write: raises when `get_tabs` raises, returns
`None` when no tab or no websocket URL is found, and otherwise produces the
`data` dictionary (however the script execution went). -/
def scrapeRun (env : ScraperEnv) : Except Unit (Option ScrapedDoc) :=
  match find_cafe24_tab env.transport with
  | .error e => .error e
  | .ok none => .ok none
  | .ok (some tab) =>
    match tab.webSocketDebuggerUrl with
    | none => .ok none
    | some _ => .ok (some (scrapeTab env tab))

/-- A full run of `collect()`: first component is the returned value (or the
propagated exception), second is what was written to
`data/cafe24/orders.json` (`none` = file untouched).  The write happens
exactly on the path that returns a document: `collect()` saves `data`
unconditionally once a websocket URL was found — including after a failed
script execution. -/
def scrapeCollect (env : ScraperEnv) :
    Except Unit (Option ScrapedDoc) × Option ScrapedDoc :=
  match scrapeRun env with
  | .error e => (.error e, none)
  | .ok none => (.ok none, none)
  | .ok (some d) => (.ok (some d), some d)

end Cafe24Scraper

/-! ### `collect.py` collectors (`collect_cafe24`, `collect_naver`) -/

/-- State of a channel's cache file: absent, present but unparseable
(`json.load` raises), or parsed to a snapshot. -/
inductive CacheState
  | absent
  | corrupt
  | doc (d : ChannelSnapshot)
deriving DecidableEq, Repr

/-- Reading back the JSON the scraper wrote (its `json.dump` round-trips). -/
def docToSnap (d : Cafe24Scraper.ScrapedDoc) : ChannelSnapshot :=
  { channel := some d.channel
    collected_at := some d.collected_at
    orders := some d.orders
    summary := some
      { total_orders := some d.summary.total_orders
        pending_shipments := some d.summary.pending_shipments
        total_revenue := some (d.summary.total_revenue : ℚ) } }

/-- The zeroed `data` dictionary each `collect.py` collector initialises. -/
def zeroSnapData (channel now : String) : ChannelSnapshot :=
  { channel := some channel
    collected_at := some now
    orders := some []
    summary := some ⟨some 0, some 0, some 0⟩ }

/-- What a collector hands back: the scraper's document, a cached snapshot,
or its own zeroed dictionary. -/
inductive ChanOut
  | scraped (d : Cafe24Scraper.ScrapedDoc)
  | cached (d : ChannelSnapshot)
  | zeroed (now : String)
deriving DecidableEq, Repr

/-- Environment of one run of `collect_cafe24()`: the scraper's environment
plus the state of `data/cafe24/orders.json` before the run and the clock. -/
structure Cafe24Env where
  scraper : Cafe24Scraper.ScraperEnv
  cache : CacheState
  now : String

/-- State of `data/cafe24/orders.json` after the scraper ran (the scraper
overwrites it whenever it wrote). -/
def cacheAfterScrape (env : Cafe24Env) : CacheState :=
  match (Cafe24Scraper.scrapeCollect env.scraper).2 with
  | some w => .doc (docToSnap w)
  | none => env.cache

/-- `collect_cafe24()`: the `try` around the scraper call absorbs scraper
exceptions; a truthy scraped document is returned as-is; otherwise the cache
is read — `json.load` on an unparseable cache file raises outside any
`try`, propagating to the caller. -/
def collect_cafe24 (env : Cafe24Env) : Except Unit ChanOut :=
  match (Cafe24Scraper.scrapeCollect env.scraper).1 with
  | .ok (some d) => .ok (.scraped d)
  | _ =>
    match cacheAfterScrape env with
    | .doc d => .ok (.cached d)
    | .absent => .ok (.zeroed env.now)
    | .corrupt => .error ()

/-- Environment of one run of `collect_naver()` (structurally identical to
`collect_coupang()` up to the URL pattern and cache path). -/
structure NaverEnv where
  transport : Transport
  cache : CacheState
  now : String

/-- `collect_naver()`: both the tab-found and tab-missing branches read the
same cache file the same way, so the tab lookup (which never raises) only
affects logging; a parseable cache wins, an absent cache leaves the zeroed
dictionary, an unparseable cache raises `json.JSONDecodeError` uncaught. -/
def collect_naver (env : NaverEnv) : Except Unit ChanOut :=
  let _tab := find_tab_by_url "sell.smartstore.naver.com" env.transport
  match env.cache with
  | .doc d => .ok (.cached d)
  | .absent => .ok (.zeroed env.now)
  | .corrupt => .error ()

/-! ### Persistence of the combined snapshot (`collect.py`: `main`)

`main()` persists with `open(output_file, 'w')` followed by `json.dump`:
opening with mode `'w'` truncates the published file in place, then the
serialized characters are streamed into it.  We model the file content as an
optional character list and the write as that sequence of steps, so that
interrupting after any prefix of the steps gives the content a reader (or a
crash) would observe. -/

inductive FsStep
  | truncate
  | writeChar (c : Char)
deriving DecidableEq, Repr

def applyStep (file : Option (List Char)) : FsStep → Option (List Char)
  | .truncate => some []
  | .writeChar c => some (file.getD [] ++ [c])

def fileAfter (old : Option (List Char)) (steps : List FsStep) :
    Option (List Char) :=
  steps.foldl applyStep old

/-- The step sequence of `main`'s persistence of `combined/latest.json`. -/
def persistSteps (content : List Char) : List FsStep :=
  .truncate :: content.map .writeChar

/-- The property the spec asserts of the persistence step: at every
interruption point the published file holds either the old content or the
complete new content. -/
def atomicReplaceTo (old : Option (List Char)) (content : List Char)
    (steps : List FsStep) : Prop :=
  ∀ k, fileAfter old (steps.take k) = old ∨ fileAfter old (steps.take k) = some content

/-! ## Shared lemmas -/

theorem round3_sum_close (q1 q2 q3 : ℚ) (h : q1 + q2 + q3 = 100) :
    |pyRound1 q1 + pyRound1 q2 + pyRound1 q3 - 100| ≤ 1/10 := by
  have e1 := pyRound1_err q1
  have e2 := pyRound1_err q2
  have e3 := pyRound1_err q3
  set z : ℤ := pyRoundInt (10*q1) + pyRoundInt (10*q2) + pyRoundInt (10*q3) - 1000
    with hzdef
  have hzq : (z : ℚ) = 10 * (pyRound1 q1 + pyRound1 q2 + pyRound1 q3 - 100) := by
    simp only [pyRound1, hzdef]
    push_cast
    ring
  have hdecomp : pyRound1 q1 + pyRound1 q2 + pyRound1 q3 - 100
      = (pyRound1 q1 - q1) + (pyRound1 q2 - q2) + (pyRound1 q3 - q3) := by
    linarith
  have htri : |(pyRound1 q1 - q1) + (pyRound1 q2 - q2) + (pyRound1 q3 - q3)|
      ≤ 1/20 + 1/20 + 1/20 := by
    have t1 := abs_add (pyRound1 q1 - q1 + (pyRound1 q2 - q2)) (pyRound1 q3 - q3)
    have t2 := abs_add (pyRound1 q1 - q1) (pyRound1 q2 - q2)
    linarith
  have habs : |(z : ℚ)| ≤ 3/2 := by
    rw [hzq, hdecomp, abs_mul]
    have h10 : |(10 : ℚ)| = 10 := by norm_num
    rw [h10]
    linarith
  have hz1 : |z| ≤ 1 := by
    by_contra hc
    push_neg at hc
    have h2 : (2 : ℤ) ≤ |z| := by omega
    have h2q : (2 : ℚ) ≤ |(z : ℚ)| := by
      rw [← Int.cast_abs]
      exact_mod_cast h2
    linarith
  have hgoal : |pyRound1 q1 + pyRound1 q2 + pyRound1 q3 - 100| = |(z : ℚ)| / 10 := by
    rw [hzq, abs_mul]
    norm_num
  have hz1q : |(z : ℚ)| ≤ 1 := by
    rw [← Int.cast_abs]
    exact_mod_cast hz1
  rw [hgoal]
  linarith

theorem fileAfter_writeRun (cs : List Char) : ∀ acc : List Char,
    fileAfter (some acc) (cs.map FsStep.writeChar) = some (acc ++ cs) := by
  induction cs with
  | nil => intro acc; simp [fileAfter]
  | cons c cs ih =>
    intro acc
    have step : applyStep (some acc) (.writeChar c) = some (acc ++ [c]) := rfl
    calc fileAfter (some acc) ((c :: cs).map FsStep.writeChar)
        = fileAfter (some (acc ++ [c])) (cs.map FsStep.writeChar) := by
          simp [fileAfter, List.foldl_cons, step]
      _ = some (acc ++ [c] ++ cs) := ih (acc ++ [c])
      _ = some (acc ++ c :: cs) := by simp

/-! ## Claims -/

/-- C6: for every triple of input ChannelSnapshots, the combined summary's
`total_orders` equals the sum of the lengths of the three `orders` lists
(`len(all_orders)`, not the sum of the per-channel `summary.total_orders`
counters), and the combined `total_revenue` equals the sum of the three
`summary.total_revenue` counters. -/
theorem combine_totals_spec (now : Date) (nowIso : String) (inv : InventoryState)
    (c n p : ChannelSnapshot) :
    (combine_data now nowIso inv c n p).summary.total_orders
      = (c.orders.getD []).length + (n.orders.getD []).length
        + (p.orders.getD []).length
    ∧ (combine_data now nowIso inv c n p).summary.total_revenue
      = snapRevenue c + snapRevenue n + snapRevenue p := by
  constructor
  · simp [combine_data, Nat.add_assoc]
  · rfl

/-- C9: the combined `pending_shipments` list is exactly the concatenated
orders whose status is `pending`, `confirmed` or `processing` (projected to
the pending-entry shape), truncated to the first 20 after concatenation; its
length is `min 20` of the qualifying count (so 25 qualifying orders yield
exactly 20 entries), and every element of it arises from a qualifying
order. -/
theorem pending_list_spec (now : Date) (nowIso : String) (inv : InventoryState)
    (c n p : ChannelSnapshot) :
    (combine_data now nowIso inv c n p).pending_shipments
      = ((((c.orders.getD []) ++ (n.orders.getD []) ++ (p.orders.getD [])).filter
          pendingStatus).map toPendingEntry).take 20
    ∧ (combine_data now nowIso inv c n p).pending_shipments.length
      = min 20 (((c.orders.getD []) ++ (n.orders.getD [])
          ++ (p.orders.getD [])).filter pendingStatus).length
    ∧ ∀ e ∈ (combine_data now nowIso inv c n p).pending_shipments,
        ∃ o ∈ (c.orders.getD []) ++ (n.orders.getD []) ++ (p.orders.getD []),
          pendingStatus o = true ∧ e = toPendingEntry o := by
  refine ⟨rfl, ?_, ?_⟩
  · simp [combine_data, List.length_take]
  · intro e he
    have he' : e ∈ (((c.orders.getD []) ++ (n.orders.getD [])
        ++ (p.orders.getD [])).filter pendingStatus).map toPendingEntry :=
      List.mem_of_mem_take he
    rcases List.mem_map.mp he' with ⟨o, ho, rfl⟩
    rcases List.mem_filter.mp ho with ⟨hmem, hstat⟩
    exact ⟨o, hmem, hstat, rfl⟩

/-- A channel snapshot with no orders, zero counters and revenue `r`
(used to instantiate the combiner claims at concrete inputs). -/
def revSnap (r : ℚ) : ChannelSnapshot :=
  { channel := none, collected_at := none, orders := some []
    summary := some ⟨some 0, some 0, some r⟩ }

/-- An order with `pending` status and no per-channel counter backing it. -/
def oPending : Order :=
  { order_id := some "20260101-0001", channel := some "cafe24"
    status := some "pending", customer_name := some "kim"
    product_name := some "coffee", items := none, quantity := some 1
    total_amount := some 10000, ordered_at := some "2026-10-12" }

/-- A snapshot holding one pending order while its summary counters are all
zero. -/
def sPendOnly : ChannelSnapshot :=
  { channel := some "cafe24", collected_at := some "t"
    orders := some [oPending], summary := some ⟨some 0, some 0, some 0⟩ }

/-- The reference date used by the concrete instantiations. -/
def d0 : Date := ⟨2026, 10, 12⟩

/-- C10: the combined summary's `pending_shipments` counter equals the sum of
the three channels' `summary.pending_shipments` counters, except when that
sum is 0 (Python `pending_count or len(pending_shipments)`), in which case it
equals the length of the filtered pending list instead; concretely, a channel
reporting zero pending via counters but holding one pending order yields a
combined pending count of 1 while the counter sum is 0. -/
theorem pending_counter_spec (now : Date) (nowIso : String) (inv : InventoryState)
    (c n p : ChannelSnapshot) :
    ((combine_data now nowIso inv c n p).summary.pending_shipments
      = if snapPending c + snapPending n + snapPending p = 0
        then ((combine_data now nowIso inv c n p).pending_shipments.length : ℤ)
        else snapPending c + snapPending n + snapPending p)
    ∧ snapPending sPendOnly + snapPending (revSnap 0) + snapPending (revSnap 0) = 0
    ∧ (combine_data d0 "t" InventoryState.absent sPendOnly (revSnap 0)
        (revSnap 0)).summary.pending_shipments = 1 := by
  refine ⟨rfl, by decide, ?_⟩
  decide

/-- C8: `weekly_sales` always has exactly 7 entries; entry `j` is the bucket
of the trailing calendar day `now - (6 - j)` days (so the series runs oldest
date first and each entry covers one of the trailing 7 days); an order whose
`ordered_at` does not start with the `%Y-%m-%d` form of any of those days is
in none of the day buckets, while the combined `total_orders` and
`total_revenue` are computed from the list lengths and summary counters and
so still count it. -/
theorem weekly_sales_spec (now : Date) (orders : List Order) :
    (generate_weekly_sales now orders).length = 7
    ∧ (∀ j, j < 7 →
        (generate_weekly_sales now orders)[j]?
          = some (weekEntry now (6 - j) orders))
    ∧ (∀ o ∈ orders,
        (∀ i, i < 7 →
          pyStartswith (o.ordered_at.getD "") (fmtYMD (subDays now i)) = false) →
        ∀ i, i < 7 → o ∉ dayOrders (subDays now i) orders)
    ∧ (∀ (nowIso : String) (inv : InventoryState) (c n p : ChannelSnapshot),
        (combine_data now nowIso inv c n p).summary.total_orders
          = ((c.orders.getD []) ++ (n.orders.getD []) ++ (p.orders.getD [])).length
        ∧ (combine_data now nowIso inv c n p).summary.total_revenue
          = snapRevenue c + snapRevenue n + snapRevenue p) := by
  refine ⟨by simp [generate_weekly_sales], ?_, ?_, ?_⟩
  · intro j hj
    simp [generate_weekly_sales, List.getElem?_map, List.getElem?_range, hj]
  · intro o _ hno i hi
    intro hmem
    rcases List.mem_filter.mp hmem with ⟨-, hp⟩
    rw [hno i hi] at hp
    exact Bool.false_ne_true hp
  · intro nowIso inv c n p
    exact ⟨rfl, rfl⟩

/-- An order whose `ordered_at` is not a parseable date of any bucket. -/
def oBadDate : Order :=
  { order_id := some "X1", channel := some "naver", status := some "shipped"
    customer_name := none, product_name := none, items := none
    quantity := none, total_amount := some 500, ordered_at := some "garbage" }

/-- C8 witness: at `now = 2026-10-12` and the singleton order list whose date
does not parse, the series still has 7 entries and the order lands in no
bucket (instantiating `weekly_sales_spec` and discharging its hypotheses). -/
theorem weekly_sales_spec_witness :
    (generate_weekly_sales d0 [oBadDate]).length = 7
    ∧ oBadDate ∉ dayOrders (subDays d0 3) [oBadDate] := by
  refine ⟨(weekly_sales_spec d0 [oBadDate]).1, ?_⟩
  exact (weekly_sales_spec d0 [oBadDate]).2.2.1 oBadDate (by decide)
    (by decide) 3 (by decide)

/-- C5: each `channel_breakdown` entry's percentage equals
`round(channel_revenue / total_revenue * 100, 1)` when `total_revenue > 0`
and `0` otherwise, and whenever the total revenue is positive the sum of the
three percentages lies within `0.1` of `100`. -/
theorem breakdown_percentage_spec (now : Date) (nowIso : String)
    (inv : InventoryState) (c n p : ChannelSnapshot) :
    (∀ e ∈ (combine_data now nowIso inv c n p).channel_breakdown,
        e.percentage =
          if 0 < snapRevenue c + snapRevenue n + snapRevenue p then
            pyRound1 (e.revenue / (snapRevenue c + snapRevenue n + snapRevenue p) * 100)
          else 0)
    ∧ (0 < snapRevenue c + snapRevenue n + snapRevenue p →
        |(((combine_data now nowIso inv c n p).channel_breakdown.map
            (fun e => e.percentage)).sum) - 100| ≤ 1/10) := by
  constructor
  · intro e he
    have hbd : (combine_data now nowIso inv c n p).channel_breakdown
        = [ breakdownEntry c "cafe24" (snapRevenue c + snapRevenue n + snapRevenue p)
          , breakdownEntry n "naver" (snapRevenue c + snapRevenue n + snapRevenue p)
          , breakdownEntry p "coupang" (snapRevenue c + snapRevenue n + snapRevenue p) ] := rfl
    rw [hbd] at he
    simp only [List.mem_cons, List.not_mem_nil, or_false] at he
    rcases he with rfl | rfl | rfl <;>
      · simp only [breakdownEntry]
        split_ifs with h
        · rfl
        · exact pyRound1_zero
  · intro hT
    have hTne : snapRevenue c + snapRevenue n + snapRevenue p ≠ 0 := ne_of_gt hT
    have hsum : snapRevenue c / (snapRevenue c + snapRevenue n + snapRevenue p) * 100
        + snapRevenue n / (snapRevenue c + snapRevenue n + snapRevenue p) * 100
        + snapRevenue p / (snapRevenue c + snapRevenue n + snapRevenue p) * 100 = 100 := by
      field_simp
      ring
    have hmap : ((combine_data now nowIso inv c n p).channel_breakdown.map
        (fun e => e.percentage)).sum
        = pyRound1 (snapRevenue c / (snapRevenue c + snapRevenue n + snapRevenue p) * 100)
          + pyRound1 (snapRevenue n / (snapRevenue c + snapRevenue n + snapRevenue p) * 100)
          + pyRound1 (snapRevenue p / (snapRevenue c + snapRevenue n + snapRevenue p) * 100) := by
      simp only [combine_data, breakdownEntry, List.map_cons, List.map_nil,
        List.sum_cons, List.sum_nil, if_pos hT]
      ring
    rw [hmap]
    exact round3_sum_close _ _ _ hsum

/-- C5 witness: with three channels of revenue 1 each, the total revenue is
positive and the three rounded percentages (33.3 each) sum to 99.9, within
0.1 of 100 (instantiating `breakdown_percentage_spec` and discharging its
positivity hypothesis). -/
theorem breakdown_percentage_spec_witness :
    |(((combine_data d0 "t" InventoryState.absent (revSnap 1) (revSnap 1)
        (revSnap 1)).channel_breakdown.map (fun e => e.percentage)).sum) - 100|
      ≤ 1/10 :=
  (breakdown_percentage_spec d0 "t" InventoryState.absent (revSnap 1) (revSnap 1)
    (revSnap 1)).2 (by norm_num [snapRevenue, revSnap])

/-- A frame stream in which a stray frame (no id) arrives between the
`Runtime.enable` acknowledgement and the `Runtime.evaluate` response. -/
def strayFrames : List (CDPFrame String) :=
  [ { id := some 1, result := none }
  , { id := none, result := some { result := some { value := some "stray-event" } } }
  , { id := some 2, result := some { result := some { value := some "evaluate-answer" } } } ]

/-- C7 counterexample: on a stream where the frame after the enable
acknowledgement is a stray event and the response correlated with the
evaluate request's id 2 arrives third, `execute_script` returns the stray
frame's value, not the one correlated with the submitted request's id — the
second `ws.recv()` is consumed without any id check. -/
theorem execute_script_no_correlation :
    execute_script strayFrames = .ok (some "stray-event")
    ∧ correlatedValue 2 strayFrames = some "evaluate-answer"
    ∧ ("stray-event" : String) ≠ "evaluate-answer" :=
  ⟨rfl, rfl, by decide⟩

/-- C7 (amended): the two requests `execute_script` sends do carry distinct
ids (1 for `Runtime.enable`, 2 for `Runtime.evaluate`), but the channel
consumes the second received frame unconditionally: whatever frame arrives
after the first `recv`, its `result.result.value` is returned, whether or not
its id matches the evaluate request. -/
theorem execute_script_consumes_second_frame {α : Type}
    (f1 f2 : CDPFrame α) (rest : List (CDPFrame α)) :
    (sentMessages.map Prod.fst).Nodup
    ∧ execute_script (f1 :: f2 :: rest) = .ok (frameValue f2) :=
  ⟨by decide, rfl⟩

/-- C4 counterexample: the scraper's session-listing function `get_tabs`
raises on an unreachable endpoint instead of returning an empty list (there
is no `try` around its HTTP query). -/
theorem get_tabs_raises :
    Cafe24Scraper.get_tabs Transport.unreachable = .error ()
    ∧ Cafe24Scraper.get_tabs Transport.unreachable ≠ .ok [] :=
  ⟨rfl, fun h => Except.noConfusion h⟩

/-- C4 (amended): `collect.py`'s `get_browser_tabs` indeed returns an empty
list on every transport failure (unreachable endpoint, non-200 status,
malformed body) and never raises, and `find_tab_by_url` returns the first
listed tab whose url contains the pattern as a substring (or none when no tab
matches); but `cafe24_scraper.py`'s `get_tabs` propagates transport failures
(unreachable endpoint or malformed body) to its caller instead. -/
theorem session_directory_spec :
    (get_browser_tabs Transport.unreachable = [])
    ∧ (∀ s body, s ≠ 200 → get_browser_tabs (.resp s body) = [])
    ∧ (∀ s, get_browser_tabs (.resp s (.error ())) = [])
    ∧ (∀ tabs, get_browser_tabs (.resp 200 (.ok tabs)) = tabs)
    ∧ (∀ pat t, find_tab_by_url pat t
        = (get_browser_tabs t).find? (fun tab => pyIn pat (tab.url.getD "")))
    ∧ (∀ pat t tab, find_tab_by_url pat t = some tab →
        tab ∈ get_browser_tabs t ∧ pyIn pat (tab.url.getD "") = true)
    ∧ (∀ pat t, find_tab_by_url pat t = none →
        ∀ tab ∈ get_browser_tabs t, pyIn pat (tab.url.getD "") = false)
    ∧ (Cafe24Scraper.get_tabs Transport.unreachable = .error ())
    ∧ (∀ s, Cafe24Scraper.get_tabs (.resp s (.error ())) = .error ()) := by
  refine ⟨rfl, ?_, ?_, ?_, fun _ _ => rfl, ?_, ?_, rfl, fun _ => rfl⟩
  · intro s body hs
    simp [get_browser_tabs, hs]
  · intro s
    by_cases hs : s = 200 <;> simp [get_browser_tabs, hs]
  · intro tabs
    simp [get_browser_tabs]
  · intro pat t tab hfind
    have hfind' : (get_browser_tabs t).find?
        (fun tb => pyIn pat (tb.url.getD "")) = some tab := hfind
    have hp := List.find?_some hfind'
    exact ⟨List.mem_of_find?_eq_some hfind', by simpa using hp⟩
  · intro pat t hnone tab htab
    have hnone' : (get_browser_tabs t).find?
        (fun tb => pyIn pat (tb.url.getD "")) = none := hnone
    have := List.find?_eq_none.mp hnone' tab htab
    simpa using this

/-- Two concrete tabs: only the first matches the naver pattern. -/
def tabNaver : Tab :=
  { id := some "A", url := some "https://sell.smartstore.naver.com/o/v3"
    title := some "store", type := some "page", webSocketDebuggerUrl := some "ws://a" }

def tabOther : Tab :=
  { id := some "B", url := some "https://example.com", title := some "x"
    type := some "page", webSocketDebuggerUrl := some "ws://b" }

/-- C4 witness: instantiating `session_directory_spec` — a 404 response
yields an empty tab list, and on a 200 response listing a matching tab first,
`find_tab_by_url` returns a tab that is listed and whose url contains the
pattern. -/
theorem session_directory_spec_witness :
    get_browser_tabs (.resp 404 (.ok [tabOther])) = []
    ∧ (tabNaver ∈ get_browser_tabs (.resp 200 (.ok [tabNaver, tabOther]))
        ∧ pyIn "sell.smartstore.naver.com" (tabNaver.url.getD "") = true) := by
  refine ⟨session_directory_spec.2.1 404 (.ok [tabOther]) (by decide), ?_⟩
  exact session_directory_spec.2.2.2.2.2.1 "sell.smartstore.naver.com"
    (.resp 200 (.ok [tabNaver, tabOther])) tabNaver (by decide)

/-- C3 counterexample: `main`'s persistence of the combined snapshot is not
an atomic replace — interrupting it right after the `open(..., 'w')` (one
step into the sequence) leaves the published file empty, which is neither the
previous content `"OLD"` nor the new content `"NEW"`. -/
theorem persist_not_atomic :
    ¬ atomicReplaceTo (some ['O', 'L', 'D']) ['N', 'E', 'W']
      (persistSteps ['N', 'E', 'W']) := by
  intro h
  have h1 := h 1
  revert h1
  decide

/-- C3 (amended): the combined snapshot is written by truncating
`combined/latest.json` in place and then streaming the serialized characters
into it: a completed run publishes the new content, but interruption `k`
steps after the open leaves exactly the first `k` characters of the new
content (an empty or partial file), the previous content being destroyed as
soon as the file is opened — not a write-temp-then-rename replace. -/
theorem persist_in_place_spec (old : Option (List Char)) (content : List Char)
    (k : Nat) :
    fileAfter old (persistSteps content) = some content
    ∧ fileAfter old ((persistSteps content).take (k + 1)) = some (content.take k)
    ∧ fileAfter old ((persistSteps content).take 0) = old := by
  refine ⟨?_, ?_, rfl⟩
  · have h := fileAfter_writeRun content []
    calc fileAfter old (persistSteps content)
        = fileAfter (some []) (content.map FsStep.writeChar) := by
          simp [persistSteps, fileAfter, List.foldl_cons, applyStep]
      _ = some content := by simpa using h
  · have htake : (persistSteps content).take (k + 1)
        = FsStep.truncate :: (content.take k).map FsStep.writeChar := by
      simp [persistSteps, List.take_succ_cons, List.map_take]
    rw [htake]
    have h := fileAfter_writeRun (content.take k) []
    calc fileAfter old (FsStep.truncate :: (content.take k).map FsStep.writeChar)
        = fileAfter (some []) ((content.take k).map FsStep.writeChar) := by
          simp [fileAfter, List.foldl_cons, applyStep]
      _ = some (content.take k) := by simpa using h

/-- A Cafe24 admin tab on the pending-shipments page, with a websocket URL. -/
def c1Tab : Tab :=
  { id := some "T1", url := some "https://shop.cafe24.com/admin/shipped_begin"
    title := some "orders", type := some "page"
    webSocketDebuggerUrl := some "ws://dbg/1" }

/-- The order held by the cache before the failed run. -/
def c1PrevOrder : Order :=
  { order_id := some "20260101-7", channel := some "cafe24"
    status := some "processing", customer_name := some "lee"
    product_name := some "coffee", items := none, quantity := some 1
    total_amount := some 10000, ordered_at := some "2026-01-01" }

/-- The cache snapshot published by the last successful collection. -/
def c1PrevSnap : ChannelSnapshot :=
  { channel := some "cafe24", collected_at := some "2026-01-01T00:00:00"
    orders := some [c1PrevOrder], summary := some ⟨some 1, some 1, some 10000⟩ }

/-- A run in which the tab is found but the websocket delivers no frame, so
`execute_script` raises (timeout / dropped connection), with a populated
cache on disk. -/
def c1Env : Cafe24Env :=
  { scraper :=
      { transport := .resp 200 (.ok [c1Tab])
        pendingFrames := [], dashFrames := []
        now := "2026-10-12T09:00:00" }
    cache := .doc c1PrevSnap
    now := "2026-10-12T09:00:00" }

/-- C1 counterexample: in the run `c1Env` the session is found and script
execution fails, yet the channel's on-disk cache is modified by the failed
attempt — it is overwritten with the zeroed snapshot — and the collector
returns that zeroed snapshot rather than the cached one. -/
theorem failed_scrape_clobbers_cache :
    (execute_script c1Env.scraper.pendingFrames
        : Except Unit (Option (List Order))) = .error ()
    ∧ pyIn "shipped_begin" (c1Tab.url.getD "") = true
    ∧ cacheAfterScrape c1Env ≠ c1Env.cache
    ∧ collect_cafe24 c1Env
        = .ok (.scraped (Cafe24Scraper.initDoc "2026-10-12T09:00:00")) := by
  refine ⟨rfl, by decide, by decide, rfl⟩

/-- C1 (amended): whenever the cafe24 scraper finds a session with a
websocket URL and the script execution on the chosen page variant fails, the
scraper still writes its snapshot — zeroed apart from `collected_at` — over
`data/cafe24/orders.json`, replacing the previous cache, and `collect_cafe24`
returns that zeroed snapshot instead of the cached one. -/
theorem failed_scrape_writes_zeroed (env : Cafe24Env) (tab : Tab) (w : String)
    (hfind : Cafe24Scraper.find_cafe24_tab env.scraper.transport = .ok (some tab))
    (hws : tab.webSocketDebuggerUrl = some w)
    (hfail : if pyIn "shipped_begin" (tab.url.getD "") then
        (execute_script env.scraper.pendingFrames
          : Except Unit (Option (List Order))) = .error ()
      else
        (execute_script env.scraper.dashFrames
          : Except Unit (Option Cafe24Scraper.SummaryC)) = .error ()) :
    collect_cafe24 env = .ok (.scraped (Cafe24Scraper.initDoc env.scraper.now))
    ∧ cacheAfterScrape env
        = .doc (docToSnap (Cafe24Scraper.initDoc env.scraper.now)) := by
  have htab : Cafe24Scraper.scrapeTab env.scraper tab
      = Cafe24Scraper.initDoc env.scraper.now := by
    unfold Cafe24Scraper.scrapeTab
    by_cases hpy : pyIn "shipped_begin" (tab.url.getD "") = true
    · rw [if_pos hpy] at hfail
      simp [hpy, hfail]
    · have hpy' : pyIn "shipped_begin" (tab.url.getD "") = false :=
        Bool.not_eq_true _ ▸ eq_false_of_ne_true hpy
      rw [if_neg (by simp [hpy'])] at hfail
      simp [hpy', hfail]
  have hrun : Cafe24Scraper.scrapeRun env.scraper
      = .ok (some (Cafe24Scraper.initDoc env.scraper.now)) := by
    unfold Cafe24Scraper.scrapeRun
    rw [hfind]
    dsimp only
    rw [hws]
    dsimp only
    rw [htab]
  have hcoll : Cafe24Scraper.scrapeCollect env.scraper
      = (.ok (some (Cafe24Scraper.initDoc env.scraper.now)),
         some (Cafe24Scraper.initDoc env.scraper.now)) := by
    unfold Cafe24Scraper.scrapeCollect
    rw [hrun]
  constructor
  · unfold collect_cafe24
    rw [hcoll]
  · unfold cacheAfterScrape
    rw [hcoll]

/-- C1 witness: instantiating `failed_scrape_writes_zeroed` at the concrete
run `c1Env` and discharging its hypotheses there. -/
theorem failed_scrape_writes_zeroed_witness :
    collect_cafe24 c1Env
      = .ok (.scraped (Cafe24Scraper.initDoc c1Env.scraper.now))
    ∧ cacheAfterScrape c1Env
      = .doc (docToSnap (Cafe24Scraper.initDoc c1Env.scraper.now)) :=
  failed_scrape_writes_zeroed c1Env c1Tab "ws://dbg/1" rfl rfl
    (by rw [if_pos (show pyIn "shipped_begin" (c1Tab.url.getD "") = true by decide)]
        rfl)

/-- Whether the scraper call inside `collect_cafe24` produced a truthy
document (the `if scraped: return scraped` branch). -/
def scrapeSucceeded (env : Cafe24Env) : Bool :=
  match (Cafe24Scraper.scrapeCollect env.scraper).1 with
  | .ok (some _) => true
  | _ => false

/-- A cafe24 run with an unreachable endpoint (the scraper raises, caught by
`collect_cafe24`) and an unparseable cache file. -/
def c2CafeEnv : Cafe24Env :=
  { scraper := { transport := .unreachable, pendingFrames := [], dashFrames := []
                 now := "t" }
    cache := .corrupt, now := "t" }

/-- A naver run with an unreachable endpoint and an unparseable cache file. -/
def c2NaverEnv : NaverEnv :=
  { transport := .unreachable, cache := .corrupt, now := "t" }

/-- C2 counterexample: with a cache file containing unparseable JSON, both
`collect_cafe24` and `collect_naver` raise to their caller (the `json.load`
of the cache is outside every `try`), instead of degrading to a zeroed
snapshot as a missing cache does. -/
theorem corrupt_cache_raises :
    collect_cafe24 c2CafeEnv = .error ()
    ∧ collect_naver c2NaverEnv = .error () :=
  ⟨rfl, rfl⟩

/-- C2 (amended): `collect()` returns a well-formed ChannelSnapshot and never
raises in every environment state except one — a cache file containing
unparseable JSON.  Whenever the cache is absent or parseable the collectors
return normally (a missing cache yielding the zeroed snapshot), but a corrupt
cache makes `collect_naver` raise unconditionally and makes `collect_cafe24`
raise whenever it falls back to the cache (i.e. whenever the scraper did not
return a truthy document). -/
theorem collect_fallback_spec :
    (∀ env : Cafe24Env, env.cache ≠ .corrupt → ∃ out, collect_cafe24 env = .ok out)
    ∧ (∀ env : NaverEnv, env.cache ≠ .corrupt → ∃ out, collect_naver env = .ok out)
    ∧ (∀ env : NaverEnv, env.cache = .absent →
        collect_naver env = .ok (.zeroed env.now))
    ∧ (∀ env : Cafe24Env, env.cache = .absent → scrapeSucceeded env = false →
        collect_cafe24 env = .ok (.zeroed env.now))
    ∧ (∀ env : Cafe24Env, env.cache = .corrupt → scrapeSucceeded env = false →
        collect_cafe24 env = .error ())
    ∧ (∀ env : NaverEnv, env.cache = .corrupt → collect_naver env = .error ()) := by
  have hinv : ∀ env : Cafe24Env, scrapeSucceeded env = false →
      (Cafe24Scraper.scrapeCollect env.scraper).2 = none := by
    intro env hs
    unfold scrapeSucceeded at hs
    unfold Cafe24Scraper.scrapeCollect at hs ⊢
    rcases hr : Cafe24Scraper.scrapeRun env.scraper with e | od
    · rfl
    · rcases od with _ | d
      · rfl
      · rw [hr] at hs
        simp at hs
  refine ⟨?_, ?_, ?_, ?_, ?_, ?_⟩
  · intro env hc
    unfold collect_cafe24 cacheAfterScrape
    rcases hr : (Cafe24Scraper.scrapeCollect env.scraper).1 with e | od
    · rcases hw : (Cafe24Scraper.scrapeCollect env.scraper).2 with _ | w
      · rcases hcc : env.cache with _ | _ | d
        · exact ⟨.zeroed env.now, rfl⟩
        · exact absurd hcc hc
        · exact ⟨.cached d, rfl⟩
      · exact ⟨.cached (docToSnap w), rfl⟩
    · rcases od with _ | d
      · rcases hw : (Cafe24Scraper.scrapeCollect env.scraper).2 with _ | w
        · rcases hcc : env.cache with _ | _ | d
          · exact ⟨.zeroed env.now, rfl⟩
          · exact absurd hcc hc
          · exact ⟨.cached d, rfl⟩
        · exact ⟨.cached (docToSnap w), rfl⟩
      · exact ⟨.scraped d, rfl⟩
  · intro env hc
    unfold collect_naver
    rcases hcc : env.cache with _ | _ | d
    · exact ⟨.zeroed env.now, rfl⟩
    · exact absurd hcc hc
    · exact ⟨.cached d, rfl⟩
  · intro env hc
    unfold collect_naver
    rw [hc]
  · intro env hc hs
    have h2 := hinv env hs
    unfold scrapeSucceeded at hs
    unfold collect_cafe24 cacheAfterScrape
    rcases hr : (Cafe24Scraper.scrapeCollect env.scraper).1 with e | od
    · rw [h2, hc]
    · rcases od with _ | d
      · rw [h2, hc]
      · rw [hr] at hs
        simp at hs
  · intro env hc hs
    have h2 := hinv env hs
    unfold scrapeSucceeded at hs
    unfold collect_cafe24 cacheAfterScrape
    rcases hr : (Cafe24Scraper.scrapeCollect env.scraper).1 with e | od
    · rw [h2, hc]
    · rcases od with _ | d
      · rw [h2, hc]
      · rw [hr] at hs
        simp at hs
  · intro env hc
    unfold collect_naver
    rw [hc]

/-- A cafe24 run with no session and no cache. -/
def cAbsEnv : Cafe24Env :=
  { scraper := { transport := .resp 200 (.ok []), pendingFrames := []
                 dashFrames := [], now := "t" }
    cache := .absent, now := "t" }

/-- A naver run with no session and no cache. -/
def nAbsEnv : NaverEnv := { transport := .unreachable, cache := .absent, now := "t" }

/-- C2 witness: instantiating `collect_fallback_spec` — with no session and
no cache both collectors return normally (naver with the zeroed snapshot),
and with no session and a corrupt cache `collect_cafe24` raises. -/
theorem collect_fallback_spec_witness :
    (∃ out, collect_cafe24 cAbsEnv = .ok out)
    ∧ collect_naver nAbsEnv = .ok (.zeroed "t")
    ∧ collect_cafe24 c2CafeEnv = .error () := by
  refine ⟨collect_fallback_spec.1 cAbsEnv (by decide), ?_, ?_⟩
  · exact collect_fallback_spec.2.2.1 nAbsEnv (by decide)
  · exact collect_fallback_spec.2.2.2.2.1 c2CafeEnv (by decide) (by decide)

end TZB
